import Mathlib

/-!
# EchoMind real-time session transport: verification development

Shallow embedding of the frontend real-time transport subsystem:

* the `useWebSocket` hook (Transport Channel) from
  `src/frontend/src/components/call-interface.tsx`,
* the message-routing effect of `CallsPage` (Message Router) from
  `src/frontend/src/app/calls/page.tsx`,
* the `useCallSession` hook and the page handlers (Session Controller) from
  `src/frontend/src/hooks/use-call-session.ts` and `src/frontend/src/app/calls/page.tsx`.

Stateful hook code is embedded as pure state-passing functions over explicit
state records; browser events (socket open/message/close/error, timer fire)
become an event type and a step function; observable side effects (socket
creation, socket closure, scheduling a reconnection timer, transmitting a
frame) are collected as an action list.
-/

namespace EchoMind

/-! ## Transport Channel data model (useWebSocket) -/

/-- The `connectionStatus` state of `useWebSocket`:
`'connecting' | 'connected' | 'disconnected' | 'error'`. -/
inductive ConnStatus
  | connecting
  | connected
  | disconnected
  | error
deriving DecidableEq, Repr

/-- Browser `WebSocket.readyState` values. -/
inductive ReadyState
  | connecting
  | opened
  | closing
  | closed
deriving DecidableEq, Repr

/-- A browser WebSocket handle as the hook sees it: identified by a creation
counter (each `new WebSocket(...)` yields a fresh handle), remembering the
client identifier in its URL and its ready state. -/
structure Socket where
  id : Nat
  clientId : String
  readyState : ReadyState
deriving DecidableEq, Repr

/-- An outbound message as built by the page handlers:
`{ type, session_id, timestamp, audio? }`. -/
structure WsMessage where
  type : String
  session_id : String
  timestamp : Nat
  audio : Option String
deriving DecidableEq, Repr

/-- The mutable state of one `useWebSocket` hook instance: the refs
(`wsRef`, `reconnectTimeoutRef`, `reconnectAttemptsRef`) and the React state
(`isConnected`, `connectionStatus`, `error`, `lastMessage`), plus a counter
supplying fresh socket ids. `reconnectTimeout` holds the pending reconnection
timer the ref currently tracks, as the client id it will reconnect and the
delay it was scheduled with. `orphanTimers` holds reconnection timers that are
still live but no longer tracked by the ref: scheduling a new timer only
overwrites `reconnectTimeoutRef.current`, it does not clear the previous
`setTimeout`, so a timer that was still pending when overwritten keeps
running where `disconnect`'s `clearTimeout` can no longer reach it. -/
structure ChannelState where
  wsRef : Option Socket
  reconnectTimeout : Option (String × Nat)
  orphanTimers : List (String × Nat)
  reconnectAttempts : Nat
  isConnected : Bool
  connectionStatus : ConnStatus
  errorMsg : Option String
  lastMessage : Option String
  nextSocketId : Nat
deriving DecidableEq, Repr

/-- The state of a freshly mounted hook. -/
def initialChannel : ChannelState :=
  { wsRef := none
    reconnectTimeout := none
    orphanTimers := []
    reconnectAttempts := 0
    isConnected := false
    connectionStatus := .disconnected
    errorMsg := none
    lastMessage := none
    nextSocketId := 0 }

/-- Observable side effects of the channel code: creating a socket, closing a
socket with a close code, scheduling a reconnection timer with a delay in
milliseconds, and transmitting a serialized message on a socket. -/
inductive Action
  | newSocket (sid : Nat) (cid : String)
  | closeSocket (sid : Nat) (code : Nat)
  | scheduleReconnect (cid : String) (delayMs : Nat)
  | wireSend (sid : Nat) (msg : WsMessage)
deriving DecidableEq, Repr

/-- `maxReconnectAttempts = 5` in `useWebSocket`. -/
def maxReconnectAttempts : Nat := 5

/-- `connect(clientId)`: sets status to connecting, clears the error, creates a
new WebSocket and stores it in `wsRef` — unconditionally, with no guard on the
current status and no reuse of an existing socket. -/
def connect (cid : String) (s : ChannelState) : ChannelState × List Action :=
  let sock : Socket := { id := s.nextSocketId, clientId := cid, readyState := .connecting }
  ({ s with connectionStatus := .connecting
            errorMsg := none
            wsRef := some sock
            nextSocketId := s.nextSocketId + 1 },
   [.newSocket sock.id cid])

/-- The `ws.onopen` handler: marks connected and resets the attempt counter. -/
def handleOpen (sid : Nat) (s : ChannelState) : ChannelState :=
  { s with isConnected := true
           connectionStatus := .connected
           errorMsg := none
           reconnectAttempts := 0
           wsRef := s.wsRef.map fun w =>
             if w.id = sid then { w with readyState := .opened } else w }

/-- The `ws.onmessage` handler: stores the raw frame in `lastMessage`. -/
def handleMessage (data : String) (s : ChannelState) : ChannelState :=
  { s with lastMessage := some data }

/-- The `ws.onclose` handler (a closure over the `clientId` passed to the
`connect` call that installed it): marks disconnected, and if the close code is
not the normal closure code 1000 and fewer than `maxReconnectAttempts` attempts
have been made, increments the attempt counter and schedules a reconnection
after `min(1000 * 2 ^ attempts, 30000)` ms, computed from the counter value
after the increment. Scheduling assigns `reconnectTimeoutRef.current` without
clearing the previous timeout: a timer that was still pending in the ref is
not cancelled but orphaned — it stays live outside the ref's reach. -/
def handleClose (sid : Nat) (cid : String) (code : Nat) (s : ChannelState) :
    ChannelState × List Action :=
  let s1 := { s with isConnected := false
                     connectionStatus := ConnStatus.disconnected
                     wsRef := s.wsRef.map fun w =>
                       if w.id = sid then { w with readyState := .closed } else w }
  if code ≠ 1000 ∧ s1.reconnectAttempts < maxReconnectAttempts then
    let attempts := s1.reconnectAttempts + 1
    let delay := min (1000 * 2 ^ attempts) 30000
    ({ s1 with reconnectAttempts := attempts
               reconnectTimeout := some (cid, delay)
               orphanTimers := s1.orphanTimers ++ s1.reconnectTimeout.toList },
     [.scheduleReconnect cid delay])
  else
    (s1, [])

/-- The `ws.onerror` handler. -/
def handleError (s : ChannelState) : ChannelState :=
  { s with connectionStatus := .error, errorMsg := some "WebSocket error occurred" }

/-- A scheduled reconnection timer firing: the `setTimeout` callback calls
`connect(clientId)` again; once fired the timer is no longer pending (the ref
still holds its dead handle, on which a later `clearTimeout` is a no-op —
observationally the same as clearing the slot). -/
def fireReconnectTimer (s : ChannelState) : ChannelState × List Action :=
  match s.reconnectTimeout with
  | some (cid, _) => connect cid { s with reconnectTimeout := none }
  | none => (s, [])

/-- An orphaned reconnection timer firing: a timer that was overwritten in the
ref while still pending keeps running and, when it expires, its callback calls
`connect(clientId)` exactly like the tracked one — even if `disconnect` ran in
between, since `clearTimeout` only reached the handle held by the ref. -/
def fireOrphanTimer (i : Nat) (s : ChannelState) : ChannelState × List Action :=
  match s.orphanTimers[i]? with
  | some t => connect t.1 { s with orphanTimers := s.orphanTimers.eraseIdx i }
  | none => (s, [])

/-- `disconnect()`: clears the pending reconnection timer held by the ref
(orphaned timers are beyond `clearTimeout`'s reach and stay live), closes the
active socket (if any) with code 1000 and drops the handle, and resets the
connection flags. -/
def disconnect (s : ChannelState) : ChannelState × List Action :=
  let acts : List Action :=
    match s.wsRef with
    | some w => [.closeSocket w.id 1000]
    | none => []
  ({ s with reconnectTimeout := none
            wsRef := none
            isConnected := false
            connectionStatus := ConnStatus.disconnected
            errorMsg := none },
   acts)

/-- The `ws.send(JSON.stringify(message))` call inside `sendMessage`; the one
operation in the body that can throw. `transmitFails` says whether it does. -/
def serializeAndTransmit (sid : Nat) (m : WsMessage) (transmitFails : Bool) :
    Except String (List Action) :=
  if transmitFails then .error "send threw" else .ok [.wireSend sid m]

/-- `sendMessage(message)`: if a socket is stored and its ready state is OPEN,
serialize and transmit inside try/catch, recording "Failed to send message" on
a throw; otherwise record "WebSocket is not connected". Total: every branch
returns a state and an action list, no exception escapes to the caller. -/
def sendMessage (m : WsMessage) (transmitFails : Bool) (s : ChannelState) :
    ChannelState × List Action :=
  match s.wsRef with
  | some w =>
    if w.readyState = .opened then
      match serializeAndTransmit w.id m transmitFails with
      | .ok acts => (s, acts)
      | .error _ => ({ s with errorMsg := some "Failed to send message" }, [])
    else
      ({ s with errorMsg := some "WebSocket is not connected" }, [])
  | none => ({ s with errorMsg := some "WebSocket is not connected" }, [])

/-- Whether the stored socket exists and is OPEN — the exact guard of
`sendMessage`. -/
def socketIsOpen (s : ChannelState) : Bool :=
  match s.wsRef with
  | some w => w.readyState == .opened
  | none => false

/-- Events the channel reacts to: the two user-facing calls, the four socket
event handlers, the tracked reconnection timer firing, an orphaned
reconnection timer firing (by its position in the orphan list), and a send
request. A close event carries the client id captured by the `onclose`
closure and the close code the event reports — the code is chosen by the
browser, not by the `close()` argument: a failed closing handshake or a socket
closed while still connecting reports 1006 even after `close(1000)`. -/
inductive Event
  | userConnect (cid : String)
  | userDisconnect
  | socketOpen (sid : Nat)
  | socketMessage (data : String)
  | socketClose (sid : Nat) (cid : String) (code : Nat)
  | socketError
  | timerFire
  | orphanTimerFire (i : Nat)
  | sendReq (m : WsMessage) (transmitFails : Bool)
deriving DecidableEq, Repr

/-- One event step of the channel. -/
def step (s : ChannelState) : Event → ChannelState × List Action
  | .userConnect cid => connect cid s
  | .userDisconnect => disconnect s
  | .socketOpen sid => (handleOpen sid s, [])
  | .socketMessage d => (handleMessage d s, [])
  | .socketClose sid cid code => handleClose sid cid code s
  | .socketError => (handleError s, [])
  | .timerFire => fireReconnectTimer s
  | .orphanTimerFire i => fireOrphanTimer i s
  | .sendReq m b => sendMessage m b s

/-- Run a sequence of events, collecting all emitted actions in order. -/
def run (s : ChannelState) : List Event → ChannelState × List Action
  | [] => (s, [])
  | e :: es =>
    let r1 := step s e
    let r2 := run r1.1 es
    (r2.1, r1.2 ++ r2.2)

/-! ## Message Router data model (CallsPage routing effect) -/

/-- The fields of a parsed inbound envelope that the routing switch reads:
`data.type`, and the per-type payload fields `data.text` (transcript),
`data.status` (ai_status), `data.message` (error). -/
structure InEnvelope where
  type : String
  text : String
  status : String
  message : String
deriving DecidableEq, Repr

/-- An inbound wire frame together with the outcome of `JSON.parse` on its raw
text: either the parse throws (`malformed`) or yields an envelope
(`wellFormed`). The raw text is kept because the routing effect guards on the
truthiness of the raw `lastMessage` string before parsing. -/
inductive Frame
  | malformed (raw : String)
  | wellFormed (raw : String) (data : InEnvelope)
deriving DecidableEq, Repr

/-- The raw wire text of a frame. -/
def Frame.raw : Frame → String
  | .malformed r => r
  | .wellFormed r _ => r

/-- The router-owned React state the routing effect writes: the transcript
list and the AI status string. -/
structure RouterState where
  transcripts : List String
  aiStatus : String
deriving DecidableEq, Repr

/-- Initial router state of `CallsPage`. -/
def initialRouter : RouterState := { transcripts := [], aiStatus := "idle" }

/-- Externally visible notifications of the routing effect: the success toast
(insights slot), the error toast (error slot), and the console report emitted
by the parse-failure catch block — the MalformedMessage notification. -/
inductive RouteOutput
  | toastSuccess (msg : String)
  | toastError (msg : String)
  | malformedNotice
deriving DecidableEq, Repr

/-- The body of the `CallsPage` routing effect for one `lastMessage` value:
skip falsy values (the empty string and null — modelled by the frame list never
containing nulls), then parse; on parse failure report once and continue; on
success switch on `data.type` over the four recognized cases — the switch has
no default case, so any other type falls through with no effect. -/
def routeFrame (st : RouterState) (f : Frame) : RouterState × List RouteOutput :=
  if f.raw = "" then (st, [])
  else
    match f with
    | .malformed _ => (st, [.malformedNotice])
    | .wellFormed _ data =>
      if data.type = "insights" then
        (st, [.toastSuccess "New insights generated!"])
      else if data.type = "transcript" then
        ({ st with transcripts := st.transcripts ++ [data.text] }, [])
      else if data.type = "ai_status" then
        ({ st with aiStatus := data.status }, [])
      else if data.type = "error" then
        (st, [.toastError (if data.message = "" then "An error occurred" else data.message)])
      else
        (st, [])

/-- Route a sequence of frames in order, collecting all notifications. -/
def routeStream (st : RouterState) : List Frame → RouterState × List RouteOutput
  | [] => (st, [])
  | f :: fs =>
    let r1 := routeFrame st f
    let r2 := routeStream r1.1 fs
    (r2.1, r1.2 ++ r2.2)

/-- The single-`lastMessage` delivery mechanism: each arriving frame is written
into the one `lastMessage` state cell by `ws.onmessage`; React skips the state
update (and hence the routing effect, whose only dependency is `lastMessage`)
when the new value equals the current one. `prev` is the current cell
content. The result is the subsequence of frames the routing effect actually
sees. -/
def deliveredAux (prev : Option String) : List Frame → List Frame
  | [] => []
  | f :: fs =>
    if prev = some f.raw then deliveredAux prev fs
    else f :: deliveredAux (some f.raw) fs

/-- Frames the routing effect sees, starting from a `null` cell. -/
def deliveredFrames (frames : List Frame) : List Frame :=
  deliveredAux none frames

/-- End-to-end: frames arriving on the socket, squeezed through the single
`lastMessage` value, then routed. -/
def pipeline (frames : List Frame) : RouterState × List RouteOutput :=
  routeStream initialRouter (deliveredFrames frames)

/-! ## Session Controller data model (useCallSession, CallsPage handlers) -/

/-- The `sessionStatus` values of `useCallSession`:
`'idle' | 'starting' | 'active' | 'ending' | 'error'`. -/
inductive SessStatus
  | idle
  | starting
  | active
  | ending
  | error
deriving DecidableEq, Repr

/-- The session record the collaborator returns on a successful POST. -/
structure SessionData where
  session_id : String
  status : String
  created_at : Nat
  call_type : String
deriving DecidableEq, Repr

/-- The state owned by one `useCallSession` instance. -/
structure SessionState where
  sessionData : Option SessionData
  errorMsg : Option String
  sessionStatus : SessStatus
deriving DecidableEq, Repr

/-- Initial session-hook state. -/
def initialSession : SessionState :=
  { sessionData := none, errorMsg := none, sessionStatus := .idle }

/-- `startSessionMutation.mutateAsync(sessionId)`: the mutation function sets
status `starting` and performs the POST (its outcome is the `apiResult`
argument); `onSuccess` stores the record, sets `active`, clears the error;
`onError` sets `error` and records the message. `mutateAsync` re-raises the
failure, returned here in the `Except`. -/
def startSessionMutation (apiResult : Except String SessionData) (st : SessionState) :
    SessionState × Except String SessionData :=
  let st1 := { st with sessionStatus := SessStatus.starting }
  match apiResult with
  | .ok data =>
    ({ st1 with sessionData := some data, sessionStatus := .active, errorMsg := none },
     .ok data)
  | .error e =>
    ({ st1 with sessionStatus := .error
                errorMsg := some (if e = "" then "Failed to start session" else e) },
     .error e)

/-- `useCallSession.startSession`: awaits the mutation inside a try/catch whose
catch block is empty ("Error is handled in the mutation"), so the rejection is
swallowed and the caller always observes normal completion. -/
def startSession (apiResult : Except String SessionData) (st : SessionState) : SessionState :=
  (startSessionMutation apiResult st).1

/-- `CallsPage.handleStartCall`: returns early if no `sessionId` has been
generated; otherwise awaits `startSession` (which never rejects), then sends a
`call_start` message, sets the AI status to analyzing and shows the success
toast. The catch branch (error toast "Failed to start call session") is
unreachable because `startSession` swallows the mutation failure. The result
is the new session state, the new channel state, the emitted wire actions, the
AI-status write, and the toasts shown. -/
def handleStartCall (sessionId : Option String) (now : Nat)
    (apiResult : Except String SessionData) (transmitFails : Bool)
    (sess : SessionState) (ch : ChannelState) :
    SessionState × ChannelState × List Action × Option String × List String :=
  match sessionId with
  | none => (sess, ch, [], none, [])
  | some sid =>
    let sess1 := startSession apiResult sess
    let r := sendMessage { type := "call_start", session_id := sid, timestamp := now, audio := none }
      transmitFails ch
    (sess1, r.1, r.2, some "analyzing", ["Call session started!"])

/-- `CallsPage.handleAudioChunk`: returns early if no `sessionId` has been
generated; otherwise wraps the chunk as an `audio_chunk` message and sends it.
The session status is not consulted anywhere in the body. -/
def handleAudioChunk (sessionId : Option String) (audioData : String) (now : Nat)
    (transmitFails : Bool) (ch : ChannelState) : ChannelState × List Action :=
  match sessionId with
  | none => (ch, [])
  | some sid =>
    sendMessage { type := "audio_chunk", session_id := sid, timestamp := now, audio := some audioData }
      transmitFails ch

/-! ## Auxiliary predicates and concrete states used by the theorems -/

/-- Whether an action schedules a reconnection attempt. -/
def isSchedule : Action → Bool
  | .scheduleReconnect _ _ => true
  | _ => false

/-- Whether an action is automatic-reconnection activity: scheduling a
reconnection attempt, or performing one (creating a socket). -/
def isReconnectActivity : Action → Bool
  | .scheduleReconnect _ _ => true
  | .newSocket _ _ => true
  | _ => false

/-- The clean post-disconnect events: no user `connect` call, and any close
event reports the normal-closure code 1000 — the code `disconnect` passed to
`close` when the closing handshake succeeds. Timer fires (tracked or
orphaned), stray messages, error events, opens and send requests are all
allowed. A close event carrying an abnormal code (failed closing handshake,
stale socket) is not clean — and indeed makes the code schedule a
reconnection after `disconnect` (see the C2 counterexample). -/
def postDisconnectEvent : Event → Bool
  | .userConnect _ => false
  | .socketClose _ _ code => code == 1000
  | _ => true

/-- Events that are not a successful connection establishment (`onopen`). -/
def nonOpenEvent : Event → Bool
  | .socketOpen _ => false
  | _ => true

/-- A channel that has connected successfully: `connect` then `onopen`. -/
def sConn : ChannelState := (run initialChannel [.userConnect "client_1", .socketOpen 0]).1

/-- A connected channel with an open socket, as the page holds while idle. -/
def chOpen : ChannelState :=
  { initialChannel with
      wsRef := some { id := 0, clientId := "client_1", readyState := .opened }
      isConnected := true
      connectionStatus := .connected
      nextSocketId := 1 }

/-- A channel with both a live socket and a pending reconnection timer. -/
def sPending : ChannelState :=
  { initialChannel with
      wsRef := some { id := 3, clientId := "client_1", readyState := .opened }
      reconnectTimeout := some ("client_1", 4000)
      reconnectAttempts := 2
      nextSocketId := 4 }

/-- A run that exhausts the retry budget: the initial connection closes
abnormally, and each of the 5 scheduled reconnection attempts also closes
abnormally (code 1006). -/
def exhaustTrace : List Event :=
  [.userConnect "client_1", .socketClose 0 "client_1" 1006,
   .timerFire, .socketClose 1 "client_1" 1006,
   .timerFire, .socketClose 2 "client_1" 1006,
   .timerFire, .socketClose 3 "client_1" 1006,
   .timerFire, .socketClose 4 "client_1" 1006,
   .timerFire, .socketClose 5 "client_1" 1006]

/-- A run exhibiting timer resurrection: two `connect` calls create two
sockets (the second overwrites the first handle, both `onclose` handlers stay
attached); both sockets then close abnormally, so the second `onclose`
overwrites the ref while the first scheduled timer is still pending, orphaning
it; `disconnect` clears only the ref-tracked timer; the orphaned timer then
fires and calls `connect` — an automatic reconnection performed after
`disconnect` with no further user `connect` call. -/
def resurrectTrace : List Event :=
  [.userConnect "client_1", .userConnect "client_1",
   .socketClose 0 "client_1" 1006, .socketClose 1 "client_1" 1006,
   .userDisconnect, .orphanTimerFire 0]

/-- A well-formed transcript frame carrying the text "hello". -/
def transcriptFrame : Frame :=
  .wellFormed "transcript-hello-frame"
    { type := "transcript", text := "hello", status := "", message := "" }

/-- A well-formed frame whose type is none of the four recognized inbound
types. -/
def unknownFrame : Frame :=
  .wellFormed "call-quality-frame"
    { type := "call_quality", text := "", status := "", message := "" }

/-- Two frames differ in their raw wire text — the relation under which React
re-runs the routing effect for the second of two consecutive frames. -/
def rawDiffers (a b : Frame) : Prop := a.raw ≠ b.raw

instance : DecidableRel rawDiffers :=
  fun a b => inferInstanceAs (Decidable (a.raw ≠ b.raw))

/-- `handleStartCall` on a generated session id when the POST `/sessions`
request fails (HTTP 500) while the socket is open: the concrete run used to
exhibit the start-failure behaviour. -/
def c6run : SessionState × ChannelState × List Action × Option String × List String :=
  handleStartCall (some "session_1") 1700000000000
    (Except.error "Request failed with status code 500") false initialSession chOpen

/-! ## Transport Channel theorems -/

/-- Any single clean post-disconnect event, starting with no ref-tracked
reconnection timer and no live orphaned timer, preserves both and emits no
reconnection activity (neither a scheduling nor a socket creation). -/
theorem step_post_disconnect (s : ChannelState) (e : Event)
    (hs : s.reconnectTimeout = none) (ho : s.orphanTimers = [])
    (he : postDisconnectEvent e = true) :
    (step s e).1.reconnectTimeout = none ∧ (step s e).1.orphanTimers = [] ∧
    ∀ a ∈ (step s e).2, isReconnectActivity a = false := by
  cases e with
  | userConnect cid => simp [postDisconnectEvent] at he
  | userDisconnect =>
    cases hw : s.wsRef <;> simp [step, disconnect, isReconnectActivity, hw, hs, ho]
  | socketOpen sid => simp [step, handleOpen, hs, ho]
  | socketMessage d => simp [step, handleMessage, hs, ho]
  | socketClose sid cid code =>
    have hc : code = 1000 := by simpa [postDisconnectEvent] using he
    simp [step, handleClose, hc, hs, ho]
  | socketError => simp [step, handleError, hs, ho]
  | timerFire => simp [step, fireReconnectTimer, hs, ho]
  | orphanTimerFire i => simp [step, fireOrphanTimer, hs, ho]
  | sendReq m b =>
    simp only [step]
    cases hw : s.wsRef with
    | none => simp [sendMessage, hw, hs, ho]
    | some w =>
      by_cases hr : w.readyState = .opened
      · cases b <;>
          simp [sendMessage, hw, hr, hs, ho, serializeAndTransmit, isReconnectActivity]
      · simp [sendMessage, hw, hr, hs, ho]

/-- A whole clean post-disconnect event sequence, starting with no timers
live, keeps the ref-tracked timer cleared and never emits reconnection
activity. -/
theorem run_post_disconnect (s : ChannelState) (evs : List Event)
    (hs : s.reconnectTimeout = none) (ho : s.orphanTimers = [])
    (h : ∀ e ∈ evs, postDisconnectEvent e = true) :
    (run s evs).1.reconnectTimeout = none ∧
    ∀ a ∈ (run s evs).2, isReconnectActivity a = false := by
  induction evs generalizing s with
  | nil => simpa [run] using hs
  | cons e es ih =>
    have hstep := step_post_disconnect s e hs ho (h e (by simp))
    have hrest := ih (step s e).1 hstep.1 hstep.2.1 (fun x hx => h x (by simp [hx]))
    refine ⟨by simpa [run] using hrest.1, ?_⟩
    intro a ha
    simp only [run, List.mem_append] at ha
    rcases ha with ha | ha
    · exact hstep.2.2 a ha
    · exact hrest.2 a ha

/-- Counterexample to C2 as stated: `disconnect()` is not terminal. First, the
code of a post-disconnect close event is chosen by the browser, not by the
`close(1000)` call — a failed closing handshake (or a socket still connecting)
reports 1006, and the still-attached `onclose` handler then schedules a
reconnection after the `disconnect`: the timer is re-armed and a
`scheduleReconnect` action is emitted. Second, a reconnection timer orphaned
by an overwrite (two overlapping sockets closing abnormally) survives
`disconnect`'s `clearTimeout` and later fires, performing an automatic
`connect` that leaves the channel Connecting with a fresh socket although no
user `connect` call followed the `disconnect`. -/
theorem c2_disconnect_counterexample :
    ((run sConn [.userDisconnect, .socketClose 0 "client_1" 1006]).1.reconnectTimeout =
        some ("client_1", 2000) ∧
      Action.scheduleReconnect "client_1" 2000 ∈
        (run sConn [.userDisconnect, .socketClose 0 "client_1" 1006]).2) ∧
    ((run initialChannel resurrectTrace).1.connectionStatus = ConnStatus.connecting ∧
      Action.newSocket 2 "client_1" ∈ (run initialChannel resurrectTrace).2) := by
  decide

/-- C2 (amended): `disconnect()` cancels the ref-tracked reconnection timer,
closes the active socket (if any) with the normal-closure code 1000, and
leaves the channel Disconnected; and provided no orphaned timer is still live
at that point, then along any sequence of clean post-disconnect events (no new
`connect` call, every close event actually reporting code 1000) no automatic
reconnection is ever scheduled or performed until `connect` is called again.
It is not unconditionally terminal: an abnormal post-disconnect close code or
a live orphaned timer re-arms reconnection, as the counterexample shows. -/
theorem c2_disconnect_amended (s : ChannelState) (evs : List Event)
    (ho : s.orphanTimers = [])
    (h : ∀ e ∈ evs, postDisconnectEvent e = true) :
    (disconnect s).1.connectionStatus = ConnStatus.disconnected ∧
    (disconnect s).1.reconnectTimeout = none ∧
    (∀ w, s.wsRef = some w → (disconnect s).2 = [Action.closeSocket w.id 1000]) ∧
    (run (disconnect s).1 evs).1.reconnectTimeout = none ∧
    ∀ a ∈ (run (disconnect s).1 evs).2, isReconnectActivity a = false := by
  have hrun := run_post_disconnect (disconnect s).1 evs (by simp [disconnect])
    (by simpa [disconnect] using ho) h
  refine ⟨by simp [disconnect], by simp [disconnect], ?_, hrun.1, hrun.2⟩
  intro w hw
  simp [disconnect, hw]

/-- Witness for the amended C2: a channel with a live open socket, a
ref-tracked pending timer and no orphans, disconnected and then fed the clean
close of its old socket, a stray message and a timer fire, keeps the timer
cleared. -/
theorem c2_disconnect_amended_witness :
    (run (disconnect sPending).1
        [.socketClose 3 "client_1" 1000, .socketMessage "ping", .timerFire]).1.reconnectTimeout
      = none :=
  (c2_disconnect_amended sPending
      [.socketClose 3 "client_1" 1000, .socketMessage "ping", .timerFire]
      (by decide) (by decide)).2.2.2.1

/-- Once the attempt counter has reached the bound with no timer pending, any
single event other than a successful open preserves that and schedules
nothing. -/
theorem step_retry_exhausted (s : ChannelState) (e : Event)
    (h5 : maxReconnectAttempts ≤ s.reconnectAttempts) (ht : s.reconnectTimeout = none)
    (he : nonOpenEvent e = true) :
    maxReconnectAttempts ≤ (step s e).1.reconnectAttempts ∧
    (step s e).1.reconnectTimeout = none ∧
    ∀ a ∈ (step s e).2, isSchedule a = false := by
  cases e with
  | userConnect cid => simp [step, connect, h5, ht, isSchedule]
  | userDisconnect =>
    cases hw : s.wsRef <;> simp [step, disconnect, h5, isSchedule, hw]
  | socketOpen sid => simp [nonOpenEvent] at he
  | socketMessage d => simp [step, handleMessage, h5, ht]
  | socketClose sid cid code =>
    have hlt : ¬ s.reconnectAttempts < maxReconnectAttempts := by omega
    simp [step, handleClose, hlt, h5, ht]
  | socketError => simp [step, handleError, h5, ht]
  | timerFire => simp [step, fireReconnectTimer, ht, h5]
  | orphanTimerFire i =>
    simp only [step]
    cases hg : s.orphanTimers[i]? with
    | none => simp [fireOrphanTimer, hg, h5, ht]
    | some t =>
      obtain ⟨cid, d⟩ := t
      simp [fireOrphanTimer, hg, connect, h5, ht, isSchedule]
  | sendReq m b =>
    simp only [step]
    cases hw : s.wsRef with
    | none => simp [sendMessage, hw, h5, ht]
    | some w =>
      by_cases hr : w.readyState = .opened
      · cases b <;> simp [sendMessage, hw, hr, h5, ht, serializeAndTransmit, isSchedule]
      · simp [sendMessage, hw, hr, h5, ht]

/-- C3 (amended): after the attempt counter has reached the bound of 5 with no
timer pending, no reconnection attempt is ever scheduled again across any
sequence of events that contains no successful connection establishment. The
code does not, however, enter a distinct terminal Failed state there (see the
counterexample): its status is the ordinary Disconnected. -/
theorem c3_retry_exhaustion_amended (s : ChannelState) (evs : List Event)
    (h5 : maxReconnectAttempts ≤ s.reconnectAttempts) (ht : s.reconnectTimeout = none)
    (h : ∀ e ∈ evs, nonOpenEvent e = true) :
    (run s evs).1.reconnectTimeout = none ∧
    ∀ a ∈ (run s evs).2, isSchedule a = false := by
  induction evs generalizing s with
  | nil => simpa [run] using ht
  | cons e es ih =>
    have hstep := step_retry_exhausted s e h5 ht (h e (by simp))
    have hrest := ih (step s e).1 hstep.1 hstep.2.1 (fun x hx => h x (by simp [hx]))
    refine ⟨by simpa [run] using hrest.1, ?_⟩
    intro a ha
    simp only [run, List.mem_append] at ha
    rcases ha with ha | ha
    · exact hstep.2.2 a ha
    · exact hrest.2 a ha

/-- Counterexample to C3 as stated: running the retry budget to exhaustion
(initial abnormal close plus 5 failed reconnection attempts) leaves the
attempt counter at the bound and schedules nothing further, but the channel
does not reach any distinct terminal Failed state — its `connectionStatus` is
the ordinary `disconnected`, the same value as a freshly mounted hook, and not
even the `error` value. -/
theorem c3_retry_exhaustion_counterexample :
    (run initialChannel exhaustTrace).1.reconnectAttempts = maxReconnectAttempts ∧
    (run initialChannel exhaustTrace).1.reconnectTimeout = none ∧
    (run initialChannel exhaustTrace).1.connectionStatus = ConnStatus.disconnected ∧
    (run initialChannel exhaustTrace).1.connectionStatus ≠ ConnStatus.error ∧
    (run initialChannel exhaustTrace).1.connectionStatus = initialChannel.connectionStatus := by
  decide

/-- Witness for the amended C3: from the exhausted state, a further abnormal
close and a timer fire schedule nothing. -/
theorem c3_retry_exhaustion_witness :
    (run (run initialChannel exhaustTrace).1
        [.socketClose 5 "client_1" 1006, .timerFire]).1.reconnectTimeout = none :=
  (c3_retry_exhaustion_amended (run initialChannel exhaustTrace).1
      [.socketClose 5 "client_1" 1006, .timerFire]
      (by decide) (by decide) (by decide)).1

/-- Counterexample to C4 as stated: on a channel that is already Connected, a
further `connect` with the same client identifier is not a no-op — it changes
the status back to connecting, replaces the stored socket handle, and performs
a socket creation. -/
theorem c4_connect_idempotent_counterexample :
    sConn.connectionStatus = ConnStatus.connected ∧
    (step sConn (.userConnect "client_1")).1.connectionStatus = ConnStatus.connecting ∧
    (step sConn (.userConnect "client_1")).1.wsRef ≠ sConn.wsRef ∧
    (step sConn (.userConnect "client_1")).2 = [Action.newSocket 1 "client_1"] := by
  decide

/-- C4 (amended): `connect` is not guarded by the current state at all: in
every channel state, for every identifier, it creates a fresh socket,
overwrites the stored handle with it, sets the status to Connecting and bumps
the socket counter. -/
theorem c4_connect_always_overwrites (s : ChannelState) (cid : String) :
    (step s (.userConnect cid)).1.wsRef =
      some { id := s.nextSocketId, clientId := cid, readyState := ReadyState.connecting } ∧
    (step s (.userConnect cid)).1.connectionStatus = ConnStatus.connecting ∧
    (step s (.userConnect cid)).2 = [Action.newSocket s.nextSocketId cid] ∧
    (step s (.userConnect cid)).1.nextSocketId = s.nextSocketId + 1 := by
  simp [step, connect]

/-- Counterexample to C5 as stated: the very first automatic reconnection
attempt is scheduled with a delay of 2000 ms, not the claimed
min(1000 * 2^0, 30000) = 1000 ms. -/
theorem c5_backoff_delay_counterexample :
    (run initialChannel [.userConnect "client_1", .socketClose 0 "client_1" 1006]).2 =
      [Action.newSocket 0 "client_1", Action.scheduleReconnect "client_1" 2000] ∧
    (2000 : Nat) ≠ min (1000 * 2 ^ (1 - 1)) 30000 := by
  decide

/-- C5 (amended): the delay scheduled before the k-th automatic reconnection
attempt (k = attempts + 1, the counter value after the increment) equals
min(1000 * 2^k, 30000) ms — an exponential schedule whose first delay is
2000 ms, doubling per attempt and capped at 30000 ms. -/
theorem c5_backoff_delay_amended (s : ChannelState) (sid : Nat) (cid : String) (code : Nat)
    (hcode : code ≠ 1000) (hlt : s.reconnectAttempts < maxReconnectAttempts) :
    (step s (.socketClose sid cid code)).2 =
      [Action.scheduleReconnect cid (min (1000 * 2 ^ (s.reconnectAttempts + 1)) 30000)] ∧
    (step s (.socketClose sid cid code)).1.reconnectTimeout =
      some (cid, min (1000 * 2 ^ (s.reconnectAttempts + 1)) 30000) ∧
    (step s (.socketClose sid cid code)).1.reconnectAttempts = s.reconnectAttempts + 1 := by
  simp [step, handleClose, hcode, hlt]

/-- Witness for the amended C5: the first abnormal close on a fresh channel
schedules a reconnection after min(1000 * 2^1, 30000) = 2000 ms. -/
theorem c5_backoff_delay_witness :
    (step initialChannel (.socketClose 0 "client_1" 1006)).2 =
      [Action.scheduleReconnect "client_1" (min (1000 * 2 ^ (0 + 1)) 30000)] :=
  (c5_backoff_delay_amended initialChannel 0 "client_1" 1006 (by decide) (by decide)).1

/-- C10: `sendMessage` is total from the caller's perspective — the embedding
returns a plain state/action pair on every branch, with the one throwing
operation (`ws.send` of the serialized message, `serializeAndTransmit`)
wrapped so its failure is caught. When the socket is absent or not OPEN it
transmits nothing and records "WebSocket is not connected" in the error
field; when a failure is raised during serialization or transmission while
OPEN it transmits nothing and records "Failed to send message" instead of
propagating; otherwise it transmits exactly the message on the stored
socket. -/
theorem c10_sendMessage_total (s : ChannelState) (m : WsMessage) (b : Bool) :
    (socketIsOpen s = false →
      sendMessage m b s = ({ s with errorMsg := some "WebSocket is not connected" }, [])) ∧
    (socketIsOpen s = true → b = true →
      sendMessage m b s = ({ s with errorMsg := some "Failed to send message" }, [])) ∧
    (socketIsOpen s = true → b = false → ∀ w, s.wsRef = some w →
      sendMessage m b s = (s, [Action.wireSend w.id m])) := by
  cases hw : s.wsRef with
  | none => simp [sendMessage, socketIsOpen, hw]
  | some w =>
    by_cases hr : w.readyState = .opened
    · cases b <;> simp [sendMessage, socketIsOpen, hw, hr, serializeAndTransmit]
    · simp [sendMessage, socketIsOpen, hw, hr]

/-- Witness for C10: on a freshly mounted channel (no socket) the send is
swallowed into the error field. -/
theorem c10_sendMessage_total_witness :
    sendMessage { type := "call_start", session_id := "s1", timestamp := 5, audio := none }
        true initialChannel
      = ({ initialChannel with errorMsg := some "WebSocket is not connected" }, []) :=
  (c10_sendMessage_total initialChannel
      { type := "call_start", session_id := "s1", timestamp := 5, audio := none } true).1 rfl

/-! ## Session Controller theorems -/

/-- C6: at the failing input — a generated session id whose POST `/sessions`
request fails while the socket is open — the Session status does transition to
Error, but the failure is not surfaced to the caller and a `call_start`
Envelope is still sent through the Transport Channel together with the success
toast, because `useCallSession.startSession` swallows the mutation rejection
and `handleStartCall`'s own catch branch is unreachable. -/
theorem c6_start_failure_emits_call_start :
    c6run.1.sessionStatus = SessStatus.error ∧
    c6run.2.2.1 = [Action.wireSend 0
      { type := "call_start"
        session_id := "session_1"
        timestamp := 1700000000000
        audio := none }] ∧
    c6run.2.2.2.2 = ["Call session started!"] := by
  decide

/-- Counterexample to C7 as stated: with the Session still Idle (not Active),
a submitted chunk on a page that has generated a session id and holds an open
socket produces an outbound `audio_chunk` Envelope — it is not a no-op and the
chunk is not discarded. -/
theorem c7_audio_gating_counterexample :
    initialSession.sessionStatus ≠ SessStatus.active ∧
    (handleAudioChunk (some "session_1") "UklGRg==" 1700000000500 false chOpen).2 =
      [Action.wireSend 0
        { type := "audio_chunk"
          session_id := "session_1"
          timestamp := 1700000000500
          audio := some "UklGRg==" }] := by
  decide

/-- C7 (amended): `handleAudioChunk` never consults the Session status (the
status is not an input of the handler at all): it is a no-op exactly when no
session id has been generated, and whenever a session id exists and the stored
socket is OPEN and transmission succeeds it emits the `audio_chunk` Envelope,
whatever the Session status is. -/
theorem c7_audio_gating_amended (audioData : String) (now : Nat) (b : Bool)
    (ch : ChannelState) (w : Socket) :
    handleAudioChunk none audioData now b ch = (ch, []) ∧
    (ch.wsRef = some w → w.readyState = ReadyState.opened → b = false → ∀ sid,
      (handleAudioChunk (some sid) audioData now b ch).2 =
        [Action.wireSend w.id
          { type := "audio_chunk"
            session_id := sid
            timestamp := now
            audio := some audioData }]) := by
  refine ⟨rfl, ?_⟩
  intro hw hr hb sid
  simp [handleAudioChunk, sendMessage, hw, hr, hb, serializeAndTransmit]

/-- Witness for the amended C7: a concrete chunk on the open channel. -/
theorem c7_audio_gating_witness :
    (handleAudioChunk (some "session_1") "QUJD" 7 false chOpen).2 =
      [Action.wireSend 0
        { type := "audio_chunk"
          session_id := "session_1"
          timestamp := 7
          audio := some "QUJD" }] :=
  (c7_audio_gating_amended "QUJD" 7 false chOpen
      { id := 0, clientId := "client_1", readyState := .opened }).2 rfl rfl rfl "session_1"

/-! ## Message Router theorems -/

/-- Counterexample to C1 as stated: two consecutive frames with identical
contents are not both delivered. Two identical transcript frames arriving on
the socket leave exactly one "hello" in the transcript slot — the second frame
is skipped by the single `lastMessage` value, because writing an equal value
into the state cell does not re-run the routing effect. -/
theorem c1_router_delivery_counterexample :
    (pipeline [transcriptFrame, transcriptFrame]).1.transcripts = ["hello"] ∧
    (pipeline [transcriptFrame, transcriptFrame]).1.transcripts ≠ ["hello", "hello"] := by
  decide

/-- The pending-element form of destuttering agrees with the `lastMessage`
delivery fold: the element held in the cell is emitted, and a subsequent frame
is kept exactly when its raw text differs from the cell content. -/
theorem destutterAux_delivered (l : List Frame) : ∀ a : Frame,
    List.destutter' rawDiffers a l = a :: deliveredAux (some a.raw) l := by
  induction l with
  | nil => intro a; simp [List.destutter'_nil, deliveredAux]
  | cons f fs ih =>
    intro a
    by_cases hr : a.raw = f.raw
    · rw [List.destutter'_cons_neg, ih a]
      · simp [deliveredAux, hr]
      · simp [rawDiffers, hr]
    · rw [List.destutter'_cons_pos, ih f]
      · simp [deliveredAux, hr]
      · simpa [rawDiffers] using hr

/-- C1 (amended): the frames the routing effect sees are exactly the arrival
sequence with runs of consecutive frames of identical raw contents collapsed
to their first element (`List.destutter` under the raw-text-differs relation);
in particular delivery is a subsequence of the arrivals — relative order is
preserved and nothing is reordered — but a frame equal to its immediate
predecessor is skipped rather than delivered. -/
theorem c1_router_delivery_amended (frames : List Frame) :
    deliveredFrames frames = List.destutter rawDiffers frames ∧
    List.Sublist (deliveredFrames frames) frames := by
  have hd : deliveredFrames frames = List.destutter rawDiffers frames := by
    cases frames with
    | nil => simp [deliveredFrames, deliveredAux, List.destutter]
    | cons f fs =>
      rw [List.destutter_cons', destutterAux_delivered fs f]
      simp [deliveredFrames, deliveredAux]
  exact ⟨hd, hd ▸ List.destutter_sublist rawDiffers frames⟩

/-- Counterexample to C8 as stated: a successfully parsed Envelope whose type
is none of the recognized four is dispatched to no slot at all — the routing
switch has no default case, so the frame is silently dropped with no state
change and no notification, not delivered to a catch-all slot. -/
theorem c8_dispatch_counterexample :
    unknownFrame.raw ≠ "" ∧
    routeFrame initialRouter unknownFrame = (initialRouter, []) := by
  decide

/-- C8 (amended): each successfully parsed non-empty Envelope of a recognized
type (insights, transcript, ai_status, error) is dispatched to exactly the
subscriber slot matching its type — the insights toast, the transcript list,
the AI-status cell, the error toast — and an Envelope of any other type
produces no dispatch whatsoever: there is no catch-all slot. -/
theorem c8_dispatch_amended (st : RouterState) (raw : String) (d : InEnvelope)
    (hr : raw ≠ "") :
    (d.type = "insights" →
      routeFrame st (.wellFormed raw d) = (st, [.toastSuccess "New insights generated!"])) ∧
    (d.type = "transcript" →
      routeFrame st (.wellFormed raw d) =
        ({ st with transcripts := st.transcripts ++ [d.text] }, [])) ∧
    (d.type = "ai_status" →
      routeFrame st (.wellFormed raw d) = ({ st with aiStatus := d.status }, [])) ∧
    (d.type = "error" →
      routeFrame st (.wellFormed raw d) =
        (st, [.toastError (if d.message = "" then "An error occurred" else d.message)])) ∧
    (d.type ∉ (["insights", "transcript", "ai_status", "error"] : List String) →
      routeFrame st (.wellFormed raw d) = (st, [])) := by
  refine ⟨?_, ?_, ?_, ?_, ?_⟩ <;> intro h
  · simp [routeFrame, Frame.raw, hr, h]
  · simp [routeFrame, Frame.raw, hr, h]
  · simp [routeFrame, Frame.raw, hr, h]
  · simp [routeFrame, Frame.raw, hr, h]
  · simp only [List.mem_cons, List.not_mem_nil, or_false, not_or] at h
    simp [routeFrame, Frame.raw, hr, h.1, h.2.1, h.2.2.1, h.2.2.2]

/-- Witness for the amended C8: the concrete transcript frame lands in the
transcript slot. -/
theorem c8_dispatch_witness :
    routeFrame initialRouter transcriptFrame =
      ({ initialRouter with transcripts := initialRouter.transcripts ++ ["hello"] }, []) :=
  (c8_dispatch_amended initialRouter "transcript-hello-frame"
      { type := "transcript", text := "hello", status := "", message := "" }
      (by decide)).2.1 rfl

/-- Counterexample to C9 as stated: the empty frame fails to parse as JSON,
yet it produces no MalformedMessage notification at all — the routing effect
guards on the truthiness of `lastMessage`, and the empty string is falsy, so
the parse (and its catch block) never runs. -/
theorem c9_malformed_counterexample :
    routeFrame initialRouter (Frame.malformed "") = (initialRouter, []) ∧
    (pipeline [Frame.malformed "not json", Frame.malformed "not json"]).2 =
      [RouteOutput.malformedNotice] := by
  decide

/-- C9 (amended): every non-empty frame that fails to parse produces exactly
one MalformedMessage notification and leaves the router state unchanged, so
every subsequent frame is processed exactly as it would have been without the
malformed frame. (The empty unparseable frame produces no notification, and a
malformed frame identical to its predecessor is collapsed by the single
`lastMessage` value before reaching the parser.) -/
theorem c9_malformed_amended (st : RouterState) (raw : String) (rest : List Frame)
    (hr : raw ≠ "") :
    routeFrame st (Frame.malformed raw) = (st, [RouteOutput.malformedNotice]) ∧
    routeStream st (Frame.malformed raw :: rest) =
      ((routeStream st rest).1, RouteOutput.malformedNotice :: (routeStream st rest).2) := by
  have h1 : routeFrame st (Frame.malformed raw) = (st, [RouteOutput.malformedNotice]) := by
    simp [routeFrame, Frame.raw, hr]
  exact ⟨h1, by simp [routeStream, h1]⟩

/-- Witness for the amended C9: a malformed frame followed by a transcript
frame yields the notification and then the untouched processing of the rest. -/
theorem c9_malformed_witness :
    routeStream initialRouter [Frame.malformed "oops", transcriptFrame] =
      ((routeStream initialRouter [transcriptFrame]).1,
        RouteOutput.malformedNotice :: (routeStream initialRouter [transcriptFrame]).2) :=
  (c9_malformed_amended initialRouter "oops" [transcriptFrame] (by decide)).2

end EchoMind
